import Mathlib

/-!
Shallow embedding of the conversational RAG service (FastAPI app, Mongo-backed
short-term history, Pinecone-backed long-term memory and document index,
LangChain agent orchestration).

Conventions of the embedding:
* External collaborators (Mongo driver, Pinecone client, HuggingFace embedder,
  LangChain loaders/splitter/agent) are black boxes, passed in as function
  parameters or as outcome values of type Except String.
* Python exceptions are modelled as Except.error carrying the message; the
  AppException wrapper (app.core.exception, not part of the analysed tree)
  is modelled as the plain error message it wraps.
* Dense embedding vectors are opaque to every property here; they are
  modelled as List Int produced by an arbitrary embedder parameter.
-/

namespace RAGService

/-! ## Short-term history store (app/db/mango_database.py) -/

/-- A chat-turn document as inserted by AsyncMongoDatabase.save_chat. -/
structure ChatTurn where
  session_id : String
  user_input : String
  chatbot_response : String
deriving Repr, DecidableEq

/-- The Mongo collection state: documents in insertion order, so list order
is ascending object-id order. -/
abbrev ChatCollection := List ChatTurn

/-- AsyncMongoDatabase.save_chat: insert_one of the turn document; an insert
failure is logged and re-raised (as AppException). -/
def save_chat (insertOutcome : Except String Unit) (db : ChatCollection)
    (session_id user_input chatbot_response : String) :
    Except String ChatCollection :=
  match insertOutcome with
  | .ok _ => .ok (db ++ [⟨session_id, user_input, chatbot_response⟩])
  | .error e => .error e

/-- PyMongo cursor .limit semantics: a limit of 0 means no limit; a positive
limit caps the number of returned documents. -/
def mongoLimit {α : Type} (limit : Nat) (l : List α) : List α :=
  if limit = 0 then l else l.take limit

/-- The selection step of AsyncMongoDatabase.fetch_recent_chats: find the
session's documents, sort by object id descending (reverse of insertion
order), apply the cursor limit, then reverse back to chronological order. -/
def recentTurns (db : ChatCollection) (session_id : String) (limit : Nat) :
    List ChatTurn :=
  (mongoLimit limit ((db.filter (fun t => t.session_id == session_id)).reverse)).reverse

/-- The per-turn line pair of fetch_recent_chats. -/
def formatTurn (c : ChatTurn) : String :=
  "User: " ++ c.user_input ++ "\nAssistant: " ++ c.chatbot_response

/-- AsyncMongoDatabase.fetch_recent_chats: on any internal error return the
empty string instead of raising; otherwise select the recent turns and join
their formatted lines, returning the empty string when none exist. The
findOutcome parameter is the Mongo cursor collaborator: either the
materialised collection or a raised error. -/
def fetch_recent_chats (findOutcome : Except String ChatCollection)
    (session_id : String) (limit : Nat) : String :=
  match findOutcome with
  | .error _ => ""
  | .ok db =>
    let chats := recentTurns db session_id limit
    if chats.isEmpty then ""
    else String.intercalate "\n" (chats.map formatTurn)

/-! ## Prompt construction (app/services/agent_bot.py, final_prompt) -/

/-- The 28-space indentation of the final_prompt f-string block. -/
def indent28 : String := "                            "

/-- Leading section of final_prompt, up to and including the short-term
history header line and the indentation before the history block. -/
def historySection : String :=
  "\n" ++ indent28 ++ "Short-Term Conversation History:\n" ++ indent28

/-- Section of final_prompt between the history block and the long-term
memory block, containing the memory header line. -/
def memorySection : String :=
  "\n\n" ++ indent28 ++ "Long-Term Semantic Memory:\n" ++ indent28

/-- Section of final_prompt between the memory block and the question,
containing the user-query header line. -/
def querySection : String :=
  "\n\n" ++ indent28 ++ "User Query:\n" ++ indent28

/-- Trailing whitespace of the final_prompt f-string after the question. -/
def promptTail : String := "\n" ++ indent28

/-- The final_prompt f-string of AgentChatbot.chatbot: fixed literal text
around the interpolated history, semantic-memory and question blocks. -/
def buildFinalPrompt (history memoryBlock question : String) : String :=
  "\n" ++ indent28 ++ "Short-Term Conversation History:\n" ++ indent28 ++ history
    ++ "\n\n" ++ indent28 ++ "Long-Term Semantic Memory:\n" ++ indent28 ++ memoryBlock
    ++ "\n\n" ++ indent28 ++ "User Query:\n" ++ indent28 ++ question
    ++ "\n" ++ indent28

/-- Python str() rendering of the list of memory strings interpolated into
the f-string (single-quoted items, comma separated, in brackets). -/
def pyListStr (ms : List String) : String :=
  "[" ++ String.intercalate ", " (ms.map (fun m => "\x27" ++ m ++ "\x27")) ++ "]"

/-- Occurrence of one character list inside another, by scanning. -/
def listInfix (pat : List Char) : List Char → Bool
  | [] => pat.isEmpty
  | c :: t => pat.isPrefixOf (c :: t) || listInfix pat t

/-- Boolean substring test used to state that the section headers occur in
the built prompt. -/
def hasSubstr (s pat : String) : Bool :=
  listInfix pat.data s.data

/-! ## Long-term semantic memory (app/db/pinecone_memory_db.py) -/

/-- A Pinecone memory index record: id (the primary key), the embedding
vector, and the metadata fields user_id and memory. -/
structure MemEntry where
  id : String
  values : List Int
  user_id : String
  memory : String
deriving Repr, DecidableEq

/-- Pinecone upsert semantics over the keyed memory index: an existing record
with the same id is overwritten, otherwise the record is appended. -/
def pineconeUpsert (index : List MemEntry) (e : MemEntry) : List MemEntry :=
  if index.any (fun x => x.id == e.id) then
    index.map (fun x => if x.id == e.id then e else x)
  else index ++ [e]

/-- The memory identifier computed by PineconeMemory.store_memory: the owner
id, a hyphen, and the hex digest of the md5 hash of the memory text. The md5
hex digest (hashlib collaborator) is the md5hex parameter. -/
def mem_id (md5hex : String → String) (user_id memory_text : String) : String :=
  user_id ++ "-" ++ md5hex memory_text

/-- PineconeMemory.store_memory on the successful path: embed the text, build
the deterministic id, and upsert the record with user_id and memory metadata.
The embedder collaborator is the embed parameter. -/
def store_memory (md5hex : String → String) (embed : String → List Int)
    (index : List MemEntry) (user_id memory_text : String) : List MemEntry :=
  pineconeUpsert index
    ⟨mem_id md5hex user_id memory_text, embed memory_text, user_id, memory_text⟩

/-- Insertion of one element into a list sorted by a Bool order, used to
model the similarity ranking of vector-store query results. -/
def ordInsert {α : Type} (le : α → α → Bool) (e : α) : List α → List α
  | [] => [e]
  | x :: xs => if le e x then e :: x :: xs else x :: ordInsert le e xs

/-- Sorting by a Bool order, modelling the descending-similarity order in
which a vector store returns matches. -/
def ordSort {α : Type} (le : α → α → Bool) : List α → List α
  | [] => []
  | x :: xs => ordInsert le x (ordSort le xs)

/-- PineconeMemory.retrieve_memory on the successful path: embed the query,
run a Pinecone query restricted by the metadata filter user_id = the owner,
take the top_k matches by similarity, and return their memory metadata. The
similarity order of the index collaborator is the le parameter. -/
def retrieve_memory (le : MemEntry → MemEntry → Bool) (index : List MemEntry)
    (user_id : String) (top_k : Nat) : List String :=
  let found := (ordSort le (index.filter (fun e => e.user_id == user_id))).take top_k
  found.map (fun m => m.memory)

/-! ## Document ingestion (app/services/preprocess.py, load_documents) -/

/-- A loaded content unit (a LangChain Document); its internals are opaque to
every property stated here. -/
abbrev Doc := String

/-- The three type-specific loader collaborators (WebBaseLoader, PyPDFLoader,
TextLoader): each either yields documents or raises. -/
structure LoaderEnv where
  web : String → Except String (List Doc)
  pdf : String → Except String (List Doc)
  txt : String → Except String (List Doc)

/-- Python str.startswith, over the character lists. -/
def strStartsWith (s pre : String) : Bool :=
  pre.data.isPrefixOf s.data

/-- Python str.lower, over the character lists. -/
def lowerStr (s : String) : String :=
  String.mk (s.data.map Char.toLower)

/-- The final path component (text after the last slash), as in pathlib. -/
def pathName (s : String) : String :=
  String.mk (s.data.foldl (fun acc c => if c == '/' then [] else acc ++ [c]) [])

/-- The pathlib Path.suffix of a source string: the extension of the final
component including the dot, empty when the last dot is leading or trailing
or absent. -/
def pathSuffix (s : String) : String :=
  let cs := (pathName s).data
  match cs.reverse.findIdx? (fun c => c == '.') with
  | none => ""
  | some rj =>
    let i := cs.length - 1 - rj
    if 0 < i ∧ i < cs.length - 1 then String.mk (cs.drop i) else ""

/-- The per-source log record of load_documents: a source was loaded, skipped
for an unsupported extension, or failed and was skipped. -/
inductive LoadEvent where
  | loaded (source : String) (count : Nat)
  | skippedUnsupported (source : String) (ext : String)
  | failed (source : String) (err : String)
deriving Repr, DecidableEq

/-- One iteration of the load_documents loop: dispatch on the URL scheme or
the lower-cased file extension, catching any loader failure (which
contributes no documents) and skipping unsupported extensions. -/
def loadOne (env : LoaderEnv) (source : String) : List Doc × LoadEvent :=
  if strStartsWith source "http://" || strStartsWith source "https://" then
    match env.web source with
    | .ok ds => (ds, .loaded source ds.length)
    | .error e => ([], .failed source e)
  else
    let ext := lowerStr (pathSuffix source)
    if ext == ".pdf" then
      match env.pdf source with
      | .ok ds => (ds, .loaded source ds.length)
      | .error e => ([], .failed source e)
    else if ext == ".txt" || ext == ".text" then
      match env.txt source with
      | .ok ds => (ds, .loaded source ds.length)
      | .error e => ([], .failed source e)
    else ([], .skippedUnsupported source ext)

/-- DocumentPreprocessor.load_documents: iterate over the sources in order,
extending the flat document list with each source's contribution; an empty
source list yields an empty result. -/
def load_documents (env : LoaderEnv) : List String → List Doc × List LoadEvent
  | [] => ([], [])
  | s :: rest =>
    let (ds, ev) := loadOne env s
    let (rds, revs) := load_documents env rest
    (ds ++ rds, ev :: revs)

/-! ## Chunk and index builder (app/services/preprocess.py, build_retriever) -/

/-- A document-RAG vector index record: the namespace it was upserted under
and the chunk text it carries. -/
structure RagEntry where
  ns : String
  chunk : String
deriving Repr, DecidableEq

/-- The retrieval handle returned by build_retriever: bound to the shared
index, the session namespace, and the fixed result count k = 5. -/
structure Retriever where
  index_name : String
  ns : String
  k : Nat
deriving Repr, DecidableEq

/-- DocumentPreprocessor.build_retriever: with no loaded documents return
None without touching the index; otherwise split into chunks and upsert them
under the session-id namespace, propagating any embedding or upsert failure
(re-raised as AppException), and return the handle bound to that namespace
with k = 5. The splitter collaborator is the split parameter and the
embed-and-upsert outcome of PineconeVectorStore.from_documents is the
upsertOutcome parameter. -/
def build_retriever (split : List Doc → List String)
    (upsertOutcome : Except String Unit) (index : List RagEntry)
    (index_name : String) (loaded_docs : List Doc) (session_id : String) :
    Except String (Option Retriever × List RagEntry) :=
  if loaded_docs.isEmpty then .ok (none, index)
  else
    let chunks := split loaded_docs
    match upsertOutcome with
    | .error e => .error e
    | .ok _ =>
      .ok (some ⟨index_name, session_id, 5⟩,
           index ++ chunks.map (fun c => ⟨session_id, c⟩))

/-- A similarity search through a retrieval handle: the vector store queries
only the namespace the handle is bound to, ranks by similarity (the le
collaborator), and returns the top k chunks. -/
def retrieverGetDocs (le : RagEntry → RagEntry → Bool) (index : List RagEntry)
    (r : Retriever) : List String :=
  ((ordSort le (index.filter (fun e => e.ns == r.ns))).take r.k).map
    (fun e => e.chunk)

/-! ## Conversation orchestrator (app/services/agent_bot.py, AgentChatbot) -/

/-- The collaborator outcomes one run of AgentChatbot.chatbot can observe:
the Mongo history cursor, the Pinecone memory retrieval, the agent executor
(a function of the composed prompt), the history insert, and the memory
store. -/
structure ChatbotEnv where
  historyOutcome : Except String ChatCollection
  memoryOutcome : Except String (List String)
  agentOutcome : String → Except String String
  saveOutcome : Except String Unit
  storeOutcome : Except String Unit

/-- AgentChatbot.chatbot: fetch recent history (lenient), retrieve long-term
memory (strict), build the final prompt, invoke the agent executor, save the
turn, store the question as new memory, and return the response text. The
whole body sits in one try block whose handler re-raises any exception as
AppException with the message Chatbot failed. -/
def chatbot (env : ChatbotEnv) (question session_id : String)
    (chat_history_limit : Nat) : Except String String :=
  let history := fetch_recent_chats env.historyOutcome session_id chat_history_limit
  match env.memoryOutcome with
  | .error _ => .error "Chatbot failed."
  | .ok mems =>
    match env.agentOutcome (buildFinalPrompt history (pyListStr mems) question) with
    | .error _ => .error "Chatbot failed."
    | .ok response_text =>
      match env.saveOutcome with
      | .error _ => .error "Chatbot failed."
      | .ok _ =>
        match env.storeOutcome with
        | .error _ => .error "Chatbot failed."
        | .ok _ => .ok response_text

/-! ## HTTP endpoints (app/api/fastapi_app.py) -/

/-- A raised Python exception inside an endpoint body: either an
HTTPException with status and detail, or an application error. -/
inductive Exc where
  | http (status : Nat) (detail : String)
  | app (msg : String)
deriving Repr, DecidableEq

/-- What an endpoint ultimately hands to the framework: a success value or an
HTTPException escaping the handler. -/
inductive EndpointResult (α : Type) where
  | ok (value : α)
  | httpError (status : Nat) (detail : String)
deriving Repr, DecidableEq

/-- The success payload of the chat endpoint. -/
structure ChatSuccess where
  session_id : String
  question : String
  response : String
deriving Repr, DecidableEq

/-- The process-wide retriever_cache dict: insertion-ordered key/value pairs;
a stored value may itself be None (a null handle). -/
abbrev RetrieverCache := List (String × Option Retriever)

/-- Python dict .get: None when the key is absent, else the stored value
(which may itself be None). -/
def cacheGet (cache : RetrieverCache) (session_id : String) : Option Retriever :=
  match cache.find? (fun p => p.1 == session_id) with
  | none => none
  | some p => p.2

/-- Python dict assignment: overwrite the existing key or append a new one. -/
def cacheSet (cache : RetrieverCache) (session_id : String)
    (r : Option Retriever) : RetrieverCache :=
  if cache.any (fun p => p.1 == session_id) then
    cache.map (fun p => if p.1 == session_id then (session_id, r) else p)
  else cache ++ [(session_id, r)]

/-- The collaborators of one chat_with_bot request: agent construction
(CreateAgent and create_agent) and the chatbot run. -/
structure ChatEnv where
  agentBuild : Except String Unit
  bot : ChatbotEnv

/-- The try-block body of chat_with_bot: look up the cached retriever, raise
HTTPException 400 when it is missing, otherwise build the agent and run the
chatbot, surfacing their failures as application errors. -/
def chat_body (cache : RetrieverCache) (env : ChatEnv)
    (session_id question : String) (chat_history_limit : Nat) :
    Except Exc ChatSuccess :=
  match cacheGet cache session_id with
  | none => .error (.http 400 "You must upload documents first.")
  | some _ =>
    match env.agentBuild with
    | .error e => .error (.app e)
    | .ok _ =>
      match chatbot env.bot question session_id chat_history_limit with
      | .error e => .error (.app e)
      | .ok response => .ok ⟨session_id, question, response⟩

/-- The chat_with_bot endpoint: the except-Exception handler catches every
exception raised in the body — including the HTTPException 400 raised for a
missing retriever — and replaces it with HTTPException 500 and the generic
detail. -/
def chat_with_bot (cache : RetrieverCache) (env : ChatEnv)
    (session_id question : String) (chat_history_limit : Nat) :
    EndpointResult ChatSuccess :=
  match chat_body cache env session_id question chat_history_limit with
  | .ok v => .ok v
  | .error _ => .httpError 500 "Error generating chatbot response."

/-- The collaborators of one upload_documents request: the per-type loaders,
the splitter, and the embed-and-upsert outcome. -/
structure UploadEnv where
  loader : LoaderEnv
  split : List Doc → List String
  upsertOutcome : Except String Unit

/-- The try-block body of upload_documents: reject an empty source list with
HTTPException 400, otherwise load the documents, build the retriever
(surfacing its failure as an application error), and register the resulting
handle — possibly None — under the session id. -/
def upload_body (env : UploadEnv) (index : List RagEntry) (index_name : String)
    (cache : RetrieverCache) (session_id : String) (sources : List String) :
    Except Exc (String × RetrieverCache × List RagEntry) :=
  if sources.isEmpty then
    .error (.http 400 "Provide at least one document or URL.")
  else
    let docs := (load_documents env.loader sources).1
    match build_retriever env.split env.upsertOutcome index index_name docs session_id with
    | .error e => .error (.app e)
    | .ok (r, index2) =>
      .ok ("Documents processed successfully", cacheSet cache session_id r, index2)

/-- The upload_documents endpoint: the except-Exception handler catches every
exception raised in the body and replaces it with HTTPException 500 and the
generic detail, leaving the cache and the index untouched. -/
def upload_documents (env : UploadEnv) (index : List RagEntry)
    (index_name : String) (cache : RetrieverCache) (session_id : String)
    (sources : List String) :
    EndpointResult String × RetrieverCache × List RagEntry :=
  match upload_body env index index_name cache session_id sources with
  | .ok (msg, cache2, index2) => (.ok msg, cache2, index2)
  | .error _ => (.httpError 500 "Error processing uploaded documents.", cache, index)

/-! ## Helper lemmas -/

/-- Membership after an ordered insertion comes from the inserted element or
the original list. -/
theorem mem_ordInsert {α : Type} (le : α → α → Bool) (e x : α) (l : List α)
    (h : x ∈ ordInsert le e l) : x = e ∨ x ∈ l := by
  induction l with
  | nil =>
    simp [ordInsert] at h
    exact Or.inl h
  | cons y ys ih =>
    by_cases hc : le e y = true
    · simpa [ordInsert, hc, or_assoc] using h
    · rcases (by simpa [ordInsert, hc] using h : x = y ∨ x ∈ ordInsert le e ys) with hy | hrec
      · exact Or.inr (by simp [hy])
      · rcases ih hrec with he | hys
        · exact Or.inl he
        · exact Or.inr (by simp [hys])

/-- The similarity sort returns only elements of its input. -/
theorem mem_ordSort {α : Type} (le : α → α → Bool) (x : α) (l : List α)
    (h : x ∈ ordSort le l) : x ∈ l := by
  induction l with
  | nil => simp [ordSort] at h
  | cons y ys ih =>
    rcases mem_ordInsert le y x (ordSort le ys) (by simpa [ordSort] using h) with hy | hrec
    · simp [hy]
    · exact List.mem_cons_of_mem y (ih hrec)

/-- A chat request whose session has no cached handle is answered with the
generic HTTP 500, whatever the collaborators would have done. -/
theorem chat_missing_handle (cache : RetrieverCache) (env : ChatEnv)
    (sid q : String) (lim : Nat) (h : cacheGet cache sid = none) :
    chat_with_bot cache env sid q lim
      = .httpError 500 "Error generating chatbot response." := by
  simp [chat_with_bot, chat_body, h]

/-! ## Claim theorems -/

/-- C9: the reasoning-loop input is a deterministic concatenation in fixed
order — history section, memory section, query section, question — and each
header is still present when every interpolated block is empty. -/
theorem c9_prompt_fixed_order (h m q : String) :
    buildFinalPrompt h m q
      = historySection ++ h ++ memorySection ++ m ++ querySection ++ q ++ promptTail
    ∧ hasSubstr (buildFinalPrompt "" "" "") "Short-Term Conversation History:" = true
    ∧ hasSubstr (buildFinalPrompt "" "" "") "Long-Term Semantic Memory:" = true
    ∧ hasSubstr (buildFinalPrompt "" "" "") "User Query:" = true := by
  refine ⟨?_, by decide, by decide, by decide⟩
  simp [buildFinalPrompt, historySection, memorySection, querySection,
    promptTail, String.append_assoc]

/-- C1: a chat request for a session id with no cached retrieval handle never
reaches the reasoning loop (the result is the same for every collaborator
environment), but the response the endpoint surfaces is the generic HTTP 500
of the except-all handler — the HTTPException 400 with the must-upload-first
detail raised in the body is swallowed by that handler, contradicting the
claimed distinct client error. -/
theorem c1_chat_before_upload_is_generic_500 (env : ChatEnv) (q : String)
    (lim : Nat) :
    chat_with_bot [] env "session-1" q lim
      = .httpError 500 "Error generating chatbot response."
    ∧ chat_body [] env "session-1" q lim
      = .error (.http 400 "You must upload documents first.") :=
  ⟨rfl, rfl⟩

/-- C2 counterexample: a concrete run in which the reasoning loop has
produced the answer and only the subsequent history append fails; the
orchestrator does not return the answer but raises Chatbot failed. -/
theorem c2_counterexample_persist_failure_drops_answer :
    chatbot ⟨.ok [], .ok [], fun _ => .ok "THE ANSWER", .error "mongo down", .ok ()⟩
        "q0" "s0" 5
      = .error "Chatbot failed."
    ∧ chatbot ⟨.ok [], .ok [], fun _ => .ok "THE ANSWER", .error "mongo down", .ok ()⟩
        "q0" "s0" 5
      ≠ .ok "THE ANSWER" := by
  have h1 : chatbot
      ⟨.ok [], .ok [], fun _ => .ok "THE ANSWER", .error "mongo down", .ok ()⟩
      "q0" "s0" 5 = .error "Chatbot failed." := rfl
  exact ⟨h1, by rw [h1]; simp⟩

/-- C2 amended: when the reasoning loop has produced an answer and the
short-term-history append or the long-term-memory store then fails, the
failure propagates out of the orchestrator as the opaque Chatbot failed
error and the answer is not returned (persistence is strict, not
best-effort). -/
theorem c2_persist_failure_propagates (env : ChatbotEnv) (q sid : String)
    (lim : Nat) (mems : List String) (r e : String)
    (hmem : env.memoryOutcome = .ok mems)
    (hagent : env.agentOutcome
        (buildFinalPrompt (fetch_recent_chats env.historyOutcome sid lim)
          (pyListStr mems) q) = .ok r)
    (hfail : env.saveOutcome = .error e
      ∨ (env.saveOutcome = .ok () ∧ env.storeOutcome = .error e)) :
    chatbot env q sid lim = .error "Chatbot failed." := by
  obtain ⟨ho, mo, ao, so, sto⟩ := env
  simp only at hmem hagent hfail
  subst hmem
  rcases hfail with hf | ⟨hs, hst⟩
  · subst hf
    simp [chatbot, hagent]
  · subst hs; subst hst
    simp [chatbot, hagent]

/-- C2 amended, witnessed at a concrete collaborator environment. -/
theorem c2_persist_failure_propagates_witness :
    chatbot ⟨.ok [], .ok [], fun _ => .ok "ANS", .error "down", .ok ()⟩ "q1" "s1" 5
      = .error "Chatbot failed." :=
  c2_persist_failure_propagates
    ⟨.ok [], .ok [], fun _ => .ok "ANS", .error "down", .ok ()⟩
    "q1" "s1" 5 [] "ANS" "down" rfl rfl (Or.inl rfl)

/-- C6: when the short-term-history read fails with any internal error,
fetch_recent_chats returns the empty string instead of raising, and a chat
turn whose other collaborators succeed still completes with the produced
answer, the reasoning loop having been fed an empty history block. -/
theorem c6_history_error_degrades_to_empty (env : ChatbotEnv)
    (e q sid : String) (lim : Nat) (mems : List String) (r : String)
    (hhist : env.historyOutcome = .error e)
    (hmem : env.memoryOutcome = .ok mems)
    (hagent : env.agentOutcome (buildFinalPrompt "" (pyListStr mems) q) = .ok r)
    (hsave : env.saveOutcome = .ok ())
    (hstore : env.storeOutcome = .ok ()) :
    fetch_recent_chats env.historyOutcome sid lim = ""
    ∧ chatbot env q sid lim = .ok r := by
  obtain ⟨ho, mo, ao, so, sto⟩ := env
  simp only at hhist hmem hagent hsave hstore
  subst hhist; subst hmem; subst hsave; subst hstore
  exact ⟨rfl, by simp [chatbot, fetch_recent_chats, hagent]⟩

/-- C6, witnessed at a concrete collaborator environment whose history read
raises. -/
theorem c6_history_error_degrades_to_empty_witness :
    fetch_recent_chats (Except.error "cursor boom") "s2" 5 = ""
    ∧ chatbot ⟨.error "cursor boom", .ok [], fun _ => .ok "ANS2", .ok (), .ok ()⟩
        "q2" "s2" 5 = .ok "ANS2" :=
  c6_history_error_degrades_to_empty
    ⟨.error "cursor boom", .ok [], fun _ => .ok "ANS2", .ok (), .ok ()⟩
    "cursor boom" "q2" "s2" 5 [] "ANS2" rfl rfl rfl rfl rfl

/-- C8: build_retriever on an empty document list returns the null handle
without error and leaves the vector index untouched, while on a non-empty
list an embedding or upsert failure propagates as the raised error. -/
theorem c8_build_retriever_empty_and_failure (split : List Doc → List String)
    (up : Except String Unit) (index : List RagEntry) (nm sid : String)
    (docs : List Doc) (e : String) :
    build_retriever split up index nm [] sid = .ok (none, index)
    ∧ (docs ≠ [] → up = .error e →
        build_retriever split up index nm docs sid = .error e) := by
  refine ⟨rfl, ?_⟩
  intro hd hu
  subst hu
  simp [build_retriever, hd]

/-- C8, witnessed: an empty upload builds no retriever and a failing upsert
on a non-empty upload aborts with its error. -/
theorem c8_build_retriever_empty_and_failure_witness :
    build_retriever (fun _ => []) (.error "upsert down") [] "ix" [] "s3"
      = .ok (none, [])
    ∧ build_retriever (fun _ => []) (.error "upsert down") [] "ix" ["d"] "s3"
      = .error "upsert down" :=
  ⟨(c8_build_retriever_empty_and_failure (fun _ => []) (.error "upsert down")
      [] "ix" "s3" ["d"] "upsert down").1,
   (c8_build_retriever_empty_and_failure (fun _ => []) (.error "upsert down")
      [] "ix" "s3" ["d"] "upsert down").2 (by simp) rfl⟩

/-- Overwriting a key in the cache and reading it back yields the written
value, when the key was already present. -/
theorem cacheGet_map_overwrite (cache : RetrieverCache) (sid : String)
    (r : Option Retriever)
    (hany : cache.any (fun p => p.1 == sid) = true) :
    cacheGet (cache.map (fun p => if p.1 == sid then (sid, r) else p)) sid
      = r := by
  induction cache with
  | nil => simp at hany
  | cons p rest ih =>
    by_cases hp : (p.1 == sid) = true
    · simp [cacheGet, List.find?, hp]
    · have hrest : rest.any (fun p => p.1 == sid) = true := by
        simpa [List.any_cons, hp] using hany
      have := ih hrest
      simpa [cacheGet, List.find?, hp] using this

/-- Reading a freshly appended key from a cache none of whose keys match
it yields the appended value. -/
theorem cacheGet_append_single (cache : RetrieverCache) (sid : String)
    (r : Option Retriever)
    (hall : ∀ p ∈ cache, (p.1 == sid) = false) :
    cacheGet (cache ++ [(sid, r)]) sid = r := by
  induction cache with
  | nil => simp [cacheGet, List.find?]
  | cons p rest ih =>
    have hp := hall p (List.mem_cons_self p rest)
    have hrec := ih (fun x hx => hall x (List.mem_cons_of_mem p hx))
    simpa [cacheGet, List.find?, hp] using hrec

/-- Dict assignment followed by dict .get on the same key yields the
assigned value. -/
theorem cacheGet_cacheSet_self (cache : RetrieverCache) (sid : String)
    (r : Option Retriever) : cacheGet (cacheSet cache sid r) sid = r := by
  by_cases hany : cache.any (fun p => p.1 == sid) = true
  · simpa [cacheSet, hany] using cacheGet_map_overwrite cache sid r hany
  · have hall : ∀ p ∈ cache, (p.1 == sid) = false := by
      intro p hp
      by_contra hne
      exact hany (List.any_eq_true.mpr ⟨p, hp, by simpa using hne⟩)
    rw [cacheSet, if_neg (by simp [hany])]
    exact cacheGet_append_single cache sid r hall

/-- C10: an upload whose sources load zero documents still returns the
success acknowledgment while registering a null handle for the session, and
any subsequent chat on that session behaves exactly like a chat with no
upload at all, landing on the missing-handle error path. -/
theorem c10_zero_doc_upload_registers_null_handle (env : UploadEnv)
    (index : List RagEntry) (nm : String) (cache : RetrieverCache)
    (sid : String) (sources : List String)
    (hne : sources ≠ [])
    (hempty : (load_documents env.loader sources).1 = []) :
    upload_documents env index nm cache sid sources
      = (.ok "Documents processed successfully", cacheSet cache sid none, index)
    ∧ cacheGet (cacheSet cache sid none) sid = none
    ∧ ∀ (cenv : ChatEnv) (q : String) (lim : Nat),
        chat_with_bot (cacheSet cache sid none) cenv sid q lim
          = chat_with_bot [] cenv sid q lim
        ∧ chat_with_bot (cacheSet cache sid none) cenv sid q lim
          = .httpError 500 "Error generating chatbot response." := by
  have hget : cacheGet (cacheSet cache sid none) sid = none :=
    cacheGet_cacheSet_self cache sid none
  refine ⟨?_, hget, ?_⟩
  · simp [upload_documents, upload_body, hne, hempty, build_retriever]
  · intro cenv q lim
    have h1 := chat_missing_handle (cacheSet cache sid none) cenv sid q lim hget
    have h2 := chat_missing_handle [] cenv sid q lim rfl
    exact ⟨h1.trans h2.symm, h1⟩

/-- C10, witnessed with a single unsupported-extension source, which loads
zero documents. -/
theorem c10_zero_doc_upload_registers_null_handle_witness :
    upload_documents
        ⟨⟨fun _ => .error "x", fun _ => .error "x", fun _ => .error "x"⟩,
         fun _ => [], .ok ()⟩
        [] "ix" [] "s9" ["a.docx"]
      = (.ok "Documents processed successfully", cacheSet [] "s9" none, [])
    ∧ cacheGet (cacheSet [] "s9" none) "s9" = none
    ∧ chat_with_bot (cacheSet [] "s9" none)
        ⟨.ok (), ⟨.ok [], .ok [], fun _ => .ok "A", .ok (), .ok ()⟩⟩
        "s9" "q" 5
      = .httpError 500 "Error generating chatbot response." := by
  have h := c10_zero_doc_upload_registers_null_handle
    ⟨⟨fun _ => .error "x", fun _ => .error "x", fun _ => .error "x"⟩,
     fun _ => [], .ok ()⟩
    [] "ix" [] "s9" ["a.docx"] (by simp) (by decide)
  exact ⟨h.1, h.2.1,
    (h.2.2 ⟨.ok (), ⟨.ok [], .ok [], fun _ => .ok "A", .ok (), .ok ()⟩⟩ "q" 5).2⟩

/-- C7: document loading returns the empty list on empty input, dispatches
per source, contributes each source's documents in order as one flat list,
skips unsupported extensions with a warning event, and converts any
per-source loader failure into a skip event, continuing with the rest. -/
theorem c7_load_documents_partial_tolerance (env : LoaderEnv)
    (sources : List String) (s e : String) :
    load_documents env [] = ([], [])
    ∧ (load_documents env sources).1
        = (sources.map (fun t => (loadOne env t).1)).flatten
    ∧ (load_documents env sources).2 = sources.map (fun t => (loadOne env t).2)
    ∧ ((strStartsWith s "http://" || strStartsWith s "https://") = false →
        (lowerStr (pathSuffix s) == ".pdf") = false →
        (lowerStr (pathSuffix s) == ".txt" || lowerStr (pathSuffix s) == ".text")
          = false →
        loadOne env s = ([], .skippedUnsupported s (lowerStr (pathSuffix s))))
    ∧ ((strStartsWith s "http://" || strStartsWith s "https://") = true →
        env.web s = .error e → loadOne env s = ([], .failed s e))
    ∧ ((strStartsWith s "http://" || strStartsWith s "https://") = false →
        (lowerStr (pathSuffix s) == ".pdf") = true →
        env.pdf s = .error e → loadOne env s = ([], .failed s e)) := by
  refine ⟨rfl, ?_, ?_, ?_, ?_, ?_⟩
  · induction sources with
    | nil => rfl
    | cons t rest ih => simp [load_documents, ih]
  · induction sources with
    | nil => rfl
    | cons t rest ih => simp [load_documents, ih]
  · intro h1 h2 h3
    simp [loadOne, h1, h2, h3]
  · intro h1 hweb
    simp [loadOne, h1, hweb]
  · intro h1 h2 hpdf
    simp [loadOne, h1, h2, hpdf]

/-- C7, witnessed: an unsupported extension is skipped, a failing web source
and a failing PDF source are caught, a good text source still loads, and the
result is the flat list of the per-source contributions. -/
theorem c7_load_documents_partial_tolerance_witness :
    load_documents
        ⟨fun _ => .error "web down", fun _ => .error "pdf broken",
         fun _ => .ok ["T"]⟩ [] = ([], [])
    ∧ (load_documents
        ⟨fun _ => .error "web down", fun _ => .error "pdf broken",
         fun _ => .ok ["T"]⟩
        ["a.docx", "http://u", "b.pdf", "c.txt"]).1 = ["T"]
    ∧ loadOne
        ⟨fun _ => .error "web down", fun _ => .error "pdf broken",
         fun _ => .ok ["T"]⟩ "a.docx"
      = ([], .skippedUnsupported "a.docx" ".docx")
    ∧ loadOne
        ⟨fun _ => .error "web down", fun _ => .error "pdf broken",
         fun _ => .ok ["T"]⟩ "http://u"
      = ([], .failed "http://u" "web down")
    ∧ loadOne
        ⟨fun _ => .error "web down", fun _ => .error "pdf broken",
         fun _ => .ok ["T"]⟩ "b.pdf"
      = ([], .failed "b.pdf" "pdf broken") := by
  refine ⟨?_, by decide, ?_, ?_, ?_⟩
  · exact (c7_load_documents_partial_tolerance
      ⟨fun _ => .error "web down", fun _ => .error "pdf broken",
       fun _ => .ok ["T"]⟩ [] "x" "y").1
  · exact ((c7_load_documents_partial_tolerance
      ⟨fun _ => .error "web down", fun _ => .error "pdf broken",
       fun _ => .ok ["T"]⟩ [] "a.docx" "y").2.2.2.1
      (by decide) (by decide) (by decide)).trans (by decide)
  · exact (c7_load_documents_partial_tolerance
      ⟨fun _ => .error "web down", fun _ => .error "pdf broken",
       fun _ => .ok ["T"]⟩ [] "http://u" "web down").2.2.2.2.1
      (by decide) rfl
  · exact (c7_load_documents_partial_tolerance
      ⟨fun _ => .error "web down", fun _ => .error "pdf broken",
       fun _ => .ok ["T"]⟩ [] "b.pdf" "pdf broken").2.2.2.2.2
      (by decide) (by decide) rfl

/-- C5 counterexample: PyMongo limit(0) means no limit, so recent with limit
0 on a session holding one turn returns that turn — more than 0 turns —
refuting the at-most-n clause of the claim at n = 0. -/
theorem c5_counterexample_limit_zero :
    recentTurns [⟨"s1", "u1", "a1"⟩] "s1" 0 = [⟨"s1", "u1", "a1"⟩]
    ∧ ¬ ((recentTurns [⟨"s1", "u1", "a1"⟩] "s1" 0).length ≤ 0) :=
  ⟨by decide, by decide⟩

/-- C5 amended: for every positive limit n, recent(S, n) selects at most n
turns, they are a suffix of the session's turns in insertion
(chronological) order — i.e. the most recently inserted ones, oldest
first — and when the session has at most n turns all of them are returned;
for limit 0 the cursor limit means no limit and every turn of the session
is returned in chronological order. -/
theorem c5_recent_chronological_pos_limit (db : ChatCollection) (sid : String)
    (n : Nat) :
    (0 < n →
      (recentTurns db sid n).length
        = min n (db.filter (fun t => t.session_id == sid)).length
      ∧ List.IsSuffix (recentTurns db sid n)
          (db.filter (fun t => t.session_id == sid))
      ∧ ((db.filter (fun t => t.session_id == sid)).length ≤ n →
          recentTurns db sid n = db.filter (fun t => t.session_id == sid)))
    ∧ recentTurns db sid 0 = db.filter (fun t => t.session_id == sid) := by
  constructor
  · intro hn
    have hne : n ≠ 0 := Nat.pos_iff_ne_zero.mp hn
    refine ⟨?_, ?_, ?_⟩
    · simp [recentTurns, mongoLimit, hne]
    · have h1 : ((db.filter (fun t => t.session_id == sid)).reverse.take n)
          <+: (db.filter (fun t => t.session_id == sid)).reverse :=
        List.take_prefix n _
      have h2 := List.reverse_suffix.mpr h1
      rw [List.reverse_reverse] at h2
      simpa [recentTurns, mongoLimit, hne] using h2
    · intro h
      have hlen : (db.filter (fun t => t.session_id == sid)).reverse.length ≤ n := by
        simpa using h
      simp [recentTurns, mongoLimit, hne, List.take_of_length_le hlen]
  · simp [recentTurns, mongoLimit]

/-- C5 amended, witnessed on a four-turn collection with two sessions:
limit 2 keeps a chronological suffix, limit 5 returns every turn of the
session, and limit 0 also returns every turn. -/
theorem c5_recent_chronological_pos_limit_witness :
    List.IsSuffix
        (recentTurns
          [⟨"s1", "u1", "a1"⟩, ⟨"s2", "u2", "a2"⟩, ⟨"s1", "u3", "a3"⟩,
           ⟨"s1", "u4", "a4"⟩] "s1" 2)
        ([⟨"s1", "u1", "a1"⟩, ⟨"s2", "u2", "a2"⟩, ⟨"s1", "u3", "a3"⟩,
          ⟨"s1", "u4", "a4"⟩].filter (fun t => t.session_id == "s1"))
    ∧ recentTurns
        [⟨"s1", "u1", "a1"⟩, ⟨"s2", "u2", "a2"⟩, ⟨"s1", "u3", "a3"⟩,
         ⟨"s1", "u4", "a4"⟩] "s1" 5
      = [⟨"s1", "u1", "a1"⟩, ⟨"s2", "u2", "a2"⟩, ⟨"s1", "u3", "a3"⟩,
         ⟨"s1", "u4", "a4"⟩].filter (fun t => t.session_id == "s1")
    ∧ recentTurns
        [⟨"s1", "u1", "a1"⟩, ⟨"s2", "u2", "a2"⟩, ⟨"s1", "u3", "a3"⟩,
         ⟨"s1", "u4", "a4"⟩] "s1" 0
      = [⟨"s1", "u1", "a1"⟩, ⟨"s2", "u2", "a2"⟩, ⟨"s1", "u3", "a3"⟩,
         ⟨"s1", "u4", "a4"⟩].filter (fun t => t.session_id == "s1") :=
  ⟨((c5_recent_chronological_pos_limit
      [⟨"s1", "u1", "a1"⟩, ⟨"s2", "u2", "a2"⟩, ⟨"s1", "u3", "a3"⟩,
       ⟨"s1", "u4", "a4"⟩] "s1" 2).1 (by decide)).2.1,
   ((c5_recent_chronological_pos_limit
      [⟨"s1", "u1", "a1"⟩, ⟨"s2", "u2", "a2"⟩, ⟨"s1", "u3", "a3"⟩,
       ⟨"s1", "u4", "a4"⟩] "s1" 5).1 (by decide)).2.2 (by decide),
   (c5_recent_chronological_pos_limit
      [⟨"s1", "u1", "a1"⟩, ⟨"s2", "u2", "a2"⟩, ⟨"s1", "u3", "a3"⟩,
       ⟨"s1", "u4", "a4"⟩] "s1" 0).2⟩

/-- Upserting the same record twice is the same as upserting it once. -/
theorem pineconeUpsert_self_idem (idx : List MemEntry) (e : MemEntry) :
    pineconeUpsert (pineconeUpsert idx e) e = pineconeUpsert idx e := by
  by_cases hany : idx.any (fun x => x.id == e.id) = true
  · obtain ⟨w, hw, hwp⟩ := List.any_eq_true.mp hany
    have hany2 : ((idx.map (fun x => if x.id == e.id then e else x)).any
        (fun x => x.id == e.id)) = true := by
      refine List.any_eq_true.mpr ⟨e, ?_, beq_self_eq_true e.id⟩
      exact List.mem_map.mpr ⟨w, hw, by simp [hwp]⟩
    have hinner : pineconeUpsert idx e
        = idx.map (fun x => if x.id == e.id then e else x) := by
      rw [pineconeUpsert, if_pos hany]
    rw [hinner, pineconeUpsert, if_pos hany2, List.map_map]
    refine List.map_congr_left ?_
    intro x _
    by_cases hx : (x.id == e.id) = true
    · simp [Function.comp, hx]
    · simp [Function.comp, hx]
  · have hall := List.any_eq_true.not.mp hany
    have hfalse : ∀ x ∈ idx, (x.id == e.id) = false := by
      intro x hx
      by_contra hne
      exact hall ⟨x, hx, by simpa using hne⟩
    have hany2 : ((idx ++ [e]).any (fun x => x.id == e.id)) = true := by
      simp [List.any_append]
    have hinner : pineconeUpsert idx e = idx ++ [e] := by
      rw [pineconeUpsert, if_neg hany]
    rw [hinner, pineconeUpsert, if_pos hany2, List.map_append]
    have h1 : idx.map (fun x => if x.id == e.id then e else x) = idx := by
      have := List.map_congr_left (l := idx)
        (f := fun x => if x.id == e.id then e else x) (g := fun x => x)
        (by intro x hx; simp [hfalse x hx])
      simpa using this
    have h2 : [e].map (fun x => if x.id == e.id then e else x) = [e] := by
      simp
    rw [h1, h2]

/-- After one upsert of a record into an index with pairwise distinct ids,
exactly one record carries the upserted id. -/
theorem pineconeUpsert_count_one (idx : List MemEntry) (e : MemEntry)
    (h : (idx.map (fun x => x.id)).Nodup) :
    (pineconeUpsert idx e).countP (fun x => x.id == e.id) = 1 := by
  by_cases hany : idx.any (fun x => x.id == e.id) = true
  · rw [pineconeUpsert, if_pos hany, List.countP_map]
    have hcongr : idx.countP
        ((fun x => x.id == e.id) ∘ fun x => if x.id == e.id then e else x)
        = idx.countP (fun x => x.id == e.id) := by
      refine List.countP_congr ?_
      intro x _
      by_cases hx : (x.id == e.id) = true
      · simp [Function.comp, hx]
      · simp [Function.comp, hx]
    rw [hcongr]
    have hmem : e.id ∈ idx.map (fun x => x.id) := by
      obtain ⟨w, hw, hwp⟩ := List.any_eq_true.mp hany
      exact List.mem_map.mpr ⟨w, hw, beq_iff_eq.mp hwp⟩
    have hcount : (idx.map (fun x => x.id)).count e.id = 1 :=
      List.count_eq_one_of_mem h hmem
    have hswap : idx.countP (fun x => x.id == e.id)
        = (idx.map (fun x => x.id)).count e.id := by
      rw [List.count, List.countP_map]
      rfl
    rw [hswap, hcount]
  · have hall := List.any_eq_true.not.mp hany
    have hfalse : ∀ x ∈ idx, ¬ ((fun x => x.id == e.id) x = true) := by
      intro x hx hne
      exact hall ⟨x, hx, hne⟩
    rw [pineconeUpsert, if_neg hany, List.countP_append,
      List.countP_eq_zero.mpr hfalse]
    simp [List.countP_cons]

/-- C4: the memory identifier is a deterministic function of owner and text,
so storing the same (owner, text) twice equals storing it once, and — on an
index whose ids are pairwise distinct, as Pinecone keys are — exactly one
record with that id remains afterwards. -/
theorem c4_store_memory_idempotent (md5hex : String → String)
    (embed : String → List Int) (index : List MemEntry) (u t : String)
    (hnodup : (index.map (fun x => x.id)).Nodup) :
    store_memory md5hex embed (store_memory md5hex embed index u t) u t
      = store_memory md5hex embed index u t
    ∧ (store_memory md5hex embed (store_memory md5hex embed index u t) u t).countP
        (fun x => x.id == mem_id md5hex u t) = 1 := by
  have hidem : store_memory md5hex embed (store_memory md5hex embed index u t) u t
      = store_memory md5hex embed index u t :=
    pineconeUpsert_self_idem index ⟨mem_id md5hex u t, embed t, u, t⟩
  refine ⟨hidem, ?_⟩
  rw [hidem]
  exact pineconeUpsert_count_one index ⟨mem_id md5hex u t, embed t, u, t⟩ hnodup

/-- C4, witnessed starting from the empty memory index: two stores of the
same owner and text coincide with one, which leaves exactly one record with
the content-addressed id. -/
theorem c4_store_memory_idempotent_witness :
    store_memory (fun s => s) (fun _ => [])
        (store_memory (fun s => s) (fun _ => []) [] "alice" "likes tea")
        "alice" "likes tea"
      = store_memory (fun s => s) (fun _ => []) [] "alice" "likes tea"
    ∧ (store_memory (fun s => s) (fun _ => [])
        (store_memory (fun s => s) (fun _ => []) [] "alice" "likes tea")
        "alice" "likes tea").countP
        (fun x => x.id == mem_id (fun s => s) "alice" "likes tea") = 1 :=
  c4_store_memory_idempotent (fun s => s) (fun _ => []) [] "alice" "likes tea"
    (by simp)

/-- C3: the retrieval handle built for a session is bound to the namespace
equal to the session id, a similarity search through it returns only chunks
of records in that namespace, and a long-term-memory retrieval for an owner
returns only memory texts of records whose owner metadata equals that
owner. -/
theorem c3_retrieval_scoped_to_session (split : List Doc → List String)
    (up : Except String Unit) (index : List RagEntry) (nm sid : String)
    (docs : List Doc) (r : Retriever) (index2 : List RagEntry)
    (hbuild : build_retriever split up index nm docs sid = .ok (some r, index2))
    (le : RagEntry → RagEntry → Bool) (qIndex : List RagEntry)
    (mle : MemEntry → MemEntry → Bool) (mIndex : List MemEntry)
    (owner : String) (k : Nat) :
    r.ns = sid
    ∧ (∀ c ∈ retrieverGetDocs le qIndex r,
        ∃ x ∈ qIndex, x.ns = sid ∧ x.chunk = c)
    ∧ (∀ m ∈ retrieve_memory mle mIndex owner k,
        ∃ x ∈ mIndex, x.user_id = owner ∧ x.memory = m) := by
  have hns : r.ns = sid := by
    by_cases hd : docs.isEmpty = true
    · rw [build_retriever, if_pos hd] at hbuild
      simp at hbuild
    · rw [build_retriever, if_neg hd] at hbuild
      cases hup : up with
      | error e => rw [hup] at hbuild; simp at hbuild
      | ok _ =>
        rw [hup] at hbuild
        simp at hbuild
        obtain ⟨h1, _⟩ := hbuild
        rw [← h1]
  refine ⟨hns, ?_, ?_⟩
  · intro c hc
    simp only [retrieverGetDocs, List.mem_map] at hc
    obtain ⟨x, hx, hxc⟩ := hc
    have hx2 := mem_ordSort le x _ (List.mem_of_mem_take hx)
    rw [List.mem_filter] at hx2
    exact ⟨x, hx2.1, by rw [← hns]; exact beq_iff_eq.mp hx2.2, hxc⟩
  · intro m hm
    simp only [retrieve_memory, List.mem_map] at hm
    obtain ⟨x, hx, hxm⟩ := hm
    have hx2 := mem_ordSort mle x _ (List.mem_of_mem_take hx)
    rw [List.mem_filter] at hx2
    exact ⟨x, hx2.1, beq_iff_eq.mp hx2.2, hxm⟩

/-- C3, witnessed: a one-document upload for session s1 yields a handle on
namespace s1, whose search result c1 traces back to an s1-namespaced record,
and a memory retrieval for owner o1 traces back to an o1-owned record. -/
theorem c3_retrieval_scoped_to_session_witness :
    (⟨"ix", "s1", 5⟩ : Retriever).ns = "s1"
    ∧ (∃ x ∈ [(⟨"s1", "c1"⟩ : RagEntry)], x.ns = "s1" ∧ x.chunk = "c1")
    ∧ (∃ x ∈ [(⟨"mid", [], "o1", "m1"⟩ : MemEntry)],
        x.user_id = "o1" ∧ x.memory = "m1") := by
  have h := c3_retrieval_scoped_to_session (fun _ => ["c1"]) (.ok ()) []
    "ix" "s1" ["d"] ⟨"ix", "s1", 5⟩ [⟨"s1", "c1"⟩] rfl
    (fun _ _ => true) [⟨"s1", "c1"⟩]
    (fun _ _ => true) [⟨"mid", [], "o1", "m1"⟩] "o1" 5
  exact ⟨h.1, h.2.1 "c1" (by decide), h.2.2 "m1" (by decide)⟩

end RAGService
